import Mathlib

/-!
Shallow embedding of the Supabase edge function
`supabase/functions/chat-with-ai/index.ts`: a stateless HTTP handler that
validates a JSON payload, forwards the message to the Gemini
generateContent endpoint, and shapes the reply as JSON with CORS headers.

JavaScript values reachable in the handler are modelled by `JSVal`
(JSON values plus `undefined`); JS truthiness, property access
(which throws on `null`/`undefined`), array indexing and
`JSON.stringify` are modelled faithfully.  A thrown JS exception is an
`Except.error ()`.  The process environment is the optional result of
`Deno.env.get`, and the single `fetch` to the upstream API is a
`FetchOutcome` parameter; the handler also reports the list of upstream
requests it issued, so that claims about the upstream never being called
are statable.
-/

namespace ChatRelay

/-- JavaScript values that can appear while the handler runs: the JSON
values plus `undefined` (absent property / absent array element). -/
inductive JSVal where
  | undefined : JSVal
  | null : JSVal
  | bool : Bool → JSVal
  | num : Int → JSVal
  | str : String → JSVal
  | arr : List JSVal → JSVal
  | obj : List (String × JSVal) → JSVal

/-- JS truthiness: `undefined`, `null`, `false`, `0` and `""` are falsy;
every object and array (even empty) is truthy. -/
def truthy : JSVal → Bool
  | .undefined => false
  | .null => false
  | .bool b => b
  | .num n => n != 0
  | .str s => s != ""
  | .arr _ => true
  | .obj _ => true

/-- JS property access `v.k`: throws a TypeError on `null` and
`undefined`; on an object it yields the field or `undefined`; on any
other value the (never-defined-here) property reads as `undefined`. -/
def getProp : JSVal → String → Except Unit JSVal
  | .undefined, _ => .error ()
  | .null, _ => .error ()
  | .obj fs, k =>
    .ok (match fs.lookup k with
         | some v => v
         | none => .undefined)
  | _, _ => .ok .undefined

/-- JS index access `v[i]`: throws on `null` and `undefined`; on an
array it yields the element or `undefined`; on a string, the character;
on an object, the field named by the decimal index. -/
def getIndex : JSVal → Nat → Except Unit JSVal
  | .undefined, _ => .error ()
  | .null, _ => .error ()
  | .arr xs, i =>
    .ok (match xs.get? i with
         | some v => v
         | none => .undefined)
  | .str s, i =>
    .ok (match s.data.get? i with
         | some c => .str (String.singleton c)
         | none => .undefined)
  | .obj fs, i =>
    .ok (match fs.lookup (toString i) with
         | some v => v
         | none => .undefined)
  | _, _ => .ok .undefined

/-- Lower hex digit for a nibble. -/
def hexDigit (n : Nat) : Char :=
  if n < 10 then Char.ofNat (48 + n) else Char.ofNat (87 + n)

/-- Two lower hex digits for a byte. -/
def hexByte (n : Nat) : String :=
  String.mk [hexDigit (n / 16), hexDigit (n % 16)]

/-- How `JSON.stringify` escapes one character inside a string. -/
def escapeChar (c : Char) : String :=
  if c = '"' then "\\\""
  else if c = '\\' then "\\\\"
  else if c = '\n' then "\\n"
  else if c = '\t' then "\\t"
  else if c = '\x0d' then "\\r"
  else if c = '\x08' then "\\b"
  else if c = '\x0c' then "\\f"
  else if c.toNat < 32 then "\\u00" ++ hexByte c.toNat
  else String.singleton c

/-- JSON string escaping, character by character. -/
def jsonEscape (s : String) : String :=
  String.join (s.data.map escapeChar)

/-- A JSON string literal with quotes. -/
def quoteStr (s : String) : String :=
  "\"" ++ jsonEscape s ++ "\""

mutual

/-- `JSON.stringify`: `undefined` has no representation (`none`); an
object field whose value is `undefined` is omitted; an `undefined`
array element serialises as `null`. -/
def stringify : JSVal → Option String
  | .undefined => none
  | .null => some "null"
  | .bool b => some (cond b "true" "false")
  | .num n => some (toString n)
  | .str s => some (quoteStr s)
  | .arr xs => some ("[" ++ String.intercalate "," (stringifyElems xs) ++ "]")
  | .obj fs => some ("\x7b" ++ String.intercalate "," (stringifyFields fs) ++ "\x7d")

/-- Serialise array elements; `undefined` becomes `null`. -/
def stringifyElems : List JSVal → List String
  | [] => []
  | x :: xs => ((stringify x).getD "null") :: stringifyElems xs

/-- Serialise object fields, omitting those whose value is `undefined`. -/
def stringifyFields : List (String × JSVal) → List String
  | [] => []
  | (k, v) :: fs =>
    match stringify v with
    | none => stringifyFields fs
    | some sv => (quoteStr k ++ ":" ++ sv) :: stringifyFields fs

end

/-- `JSON.stringify` at a place where the code passes an object literal,
so the result is always a string. -/
def stringifyTop (v : JSVal) : String :=
  (stringify v).getD ""

/-- An inbound HTTP request as the handler observes it: the method, and
the outcome of `await req.json()` (which throws on a missing or invalid
JSON body). -/
structure Request where
  method : String
  body : Except Unit JSVal

/-- An HTTP response as built by `new Response(body, init)`. -/
structure HttpResponse where
  status : Nat
  headers : List (String × String)
  body : String
deriving DecidableEq

/-- The request the handler sends to the upstream generation API: the
URL (with the API key as a query parameter) and the serialised body. -/
structure UpstreamRequest where
  url : String
  body : String
deriving DecidableEq

/-- Behaviour of the single `fetch` to the upstream API: the promise
rejects (network failure), or an HTTP response arrives with a status and
the outcome of `resp.json()`. -/
inductive FetchOutcome where
  | fail : FetchOutcome
  | success : Nat → Except Unit JSVal → FetchOutcome

/-- The `corsHeaders` constant of the source. -/
def corsHeaders : List (String × String) :=
  [("Access-Control-Allow-Origin", "*"),
   ("Access-Control-Allow-Headers", "authorization, x-client-info, apikey, content-type")]

/-- The header object spread at every JSON-returning site:
`corsHeaders` plus a JSON content type. -/
def jsonHeaders : List (String × String) :=
  corsHeaders ++ [("Content-Type", "application/json")]

/-- A `new Response(JSON.stringify(body), status, jsonHeaders)`. -/
def mkJsonResponse (status : Nat) (body : JSVal) : HttpResponse :=
  ⟨status, jsonHeaders, stringifyTop body⟩

/-- The response of the CORS-preflight branch:
`new Response('ok', headers corsHeaders)` (status defaults to 200). -/
def optionsResponse : HttpResponse :=
  ⟨200, corsHeaders, "ok"⟩

/-- The 400 response of the message validation branch. -/
def badRequestResponse : HttpResponse :=
  mkJsonResponse 400 (.obj [("error", .str "Message is required")])

/-- The guidance text returned when the API key is not configured. -/
def configMessage : String :=
  "I\x27m sorry, but the AI service is not properly configured. Please contact the administrator to set up the Gemini API key."

/-- The response of the missing-credential branch (status defaults to 200). -/
def configResponse : HttpResponse :=
  mkJsonResponse 200 (.obj [("response", .str configMessage)])

/-- The fixed fallback assigned to `response` before the candidate check. -/
def fallbackMessage : String :=
  "I\x27m sorry, I couldn\x27t generate a response at this time."

/-- The apology text of the catch-all branch. -/
def errorMessage : String :=
  "I\x27m sorry, I encountered an error while processing your message. Please try again."

/-- The 500 response of the catch-all branch. -/
def errorResponse : HttpResponse :=
  mkJsonResponse 500 (.obj [("response", .str errorMessage)])

/-- Whether `Deno.env.get('GEMINI_API_KEY')` produced a truthy value:
`undefined` and the empty string are falsy. -/
def keyTruthy : Option String → Bool
  | none => false
  | some s => s != ""

/-- The provider envelope the handler posts upstream:
`contents: [ parts: [ text: message ] ]`. -/
def envelope (message : JSVal) : JSVal :=
  .obj [("contents", .arr [.obj [("parts", .arr [.obj [("text", message)]])]])]

/-- The upstream request issued by the `fetch` call. -/
def mkUpstreamRequest (key : String) (message : JSVal) : UpstreamRequest :=
  ⟨"https://generativelanguage.googleapis.com/v1beta/models/gemini-pro:generateContent?key=" ++ key,
   stringifyTop (envelope message)⟩

/-- The candidate-extraction region of the handler, run on the parsed
upstream payload: `response` starts as the fallback, and is replaced by
`geminiData.candidates[0].content.parts[0].text` when
`geminiData.candidates && geminiData.candidates[0] &&
geminiData.candidates[0].content` holds.  Property and index accesses
inside the assignment can throw (`Except.error`). -/
def extractResponse (geminiData : JSVal) : Except Unit JSVal :=
  match getProp geminiData "candidates" with
  | .error e => .error e
  | .ok cands =>
    if truthy cands then
      match getIndex cands 0 with
      | .error e => .error e
      | .ok c0 =>
        if truthy c0 then
          match getProp c0 "content" with
          | .error e => .error e
          | .ok content =>
            if truthy content then
              match getProp content "parts" with
              | .error e => .error e
              | .ok parts =>
                match getIndex parts 0 with
                | .error e => .error e
                | .ok p0 => getProp p0 "text"
            else .ok (.str fallbackMessage)
        else .ok (.str fallbackMessage)
    else .ok (.str fallbackMessage)

/-- From the `fetch` onwards: a rejected fetch throws; a non-ok status
(outside 200..299) throws; a failing `resp.json()` throws; otherwise the
extraction region runs and a 200 JSON response carries the result. -/
def upstreamPhase : FetchOutcome → Except Unit HttpResponse
  | .fail => .error ()
  | .success status body =>
    if 200 ≤ status && status ≤ 299 then
      match body with
      | .error _ => .error ()
      | .ok geminiData =>
        match extractResponse geminiData with
        | .error _ => .error ()
        | .ok v => .ok (mkJsonResponse 200 (.obj [("response", v)]))
    else .error ()

/-- The body of the `try` block, after the OPTIONS branch: destructure
`message` from the parsed body (throws on `null`), return 400 when it is
falsy, return the configuration guidance when the key is falsy, else
call upstream.  The second component lists the upstream requests issued. -/
def run (body : Except Unit JSVal) (key : Option String) (upstream : FetchOutcome) :
    Except Unit HttpResponse × List UpstreamRequest :=
  match body with
  | .error _ => (.error (), [])
  | .ok bodyJson =>
    match getProp bodyJson "message" with
    | .error _ => (.error (), [])
    | .ok message =>
      if truthy message then
        if keyTruthy key then
          (upstreamPhase upstream, [mkUpstreamRequest (key.getD "") message])
        else (.ok configResponse, [])
      else (.ok badRequestResponse, [])

/-- The whole handler passed to `serve`: the OPTIONS branch first, then
the `try` block, with every thrown failure converted by the `catch`
branch into the 500 apology response. -/
def handle (req : Request) (key : Option String) (upstream : FetchOutcome) :
    HttpResponse × List UpstreamRequest :=
  if req.method = "OPTIONS" then (optionsResponse, [])
  else
    match run req.body key upstream with
    | (.ok r, calls) => (r, calls)
    | (.error _, calls) => (errorResponse, calls)

/-- Whether `needle` occurs contiguously at the head of `l`. -/
def startsList : List Char → List Char → Bool
  | [], _ => true
  | _ :: _, [] => false
  | c :: cs, d :: ds => c == d && startsList cs ds

/-- Whether `sub` occurs contiguously somewhere in `l`. -/
def hasRunList : List Char → List Char → Bool
  | [], sub => sub.isEmpty
  | c :: t, sub => startsList sub (c :: t) || hasRunList t sub

/-- Whether the string `sub` occurs as a substring of `s`. -/
def strMentions (s sub : String) : Bool :=
  hasRunList s.data sub.data

set_option maxRecDepth 10000

/-- On a non-OPTIONS request the handler is the try block guarded by the
catch branch. -/
theorem handle_not_options (m : String) (h : m ≠ "OPTIONS") (body : Except Unit JSVal)
    (key : Option String) (up : FetchOutcome) :
    handle ⟨m, body⟩ key up =
      (match run body key up with
       | (.ok r, calls) => (r, calls)
       | (.error _, calls) => (errorResponse, calls)) := by
  unfold handle
  simp [h]

/-- A body whose `message` destructures to a falsy value is rejected
before the credential check and the upstream call. -/
theorem run_falsy_message (j v : JSVal) (key : Option String) (up : FetchOutcome)
    (hj : getProp j "message" = .ok v) (hv : truthy v = false) :
    run (.ok j) key up = (.ok badRequestResponse, []) := by
  simp only [run, hj, hv]
  simp

/-- With a truthy message and a falsy credential, the configuration
response is returned and the upstream is not called. -/
theorem run_falsy_key (j v : JSVal) (key : Option String) (up : FetchOutcome)
    (hj : getProp j "message" = .ok v) (hv : truthy v = true) (hk : keyTruthy key = false) :
    run (.ok j) key up = (.ok configResponse, []) := by
  simp only [run, hj, hv, hk]
  simp

/-- With a truthy message and a truthy credential, the upstream is
called once and the outcome of the fetch region decides the response. -/
theorem run_truthy (j v : JSVal) (key : Option String) (up : FetchOutcome)
    (hj : getProp j "message" = .ok v) (hv : truthy v = true) (hk : keyTruthy key = true) :
    run (.ok j) key up = (upstreamPhase up, [mkUpstreamRequest (key.getD "") v]) := by
  simp only [run, hj, hv, hk]
  simp

/-- C6: for every request whose method is OPTIONS — regardless of body (even
one whose JSON parse would fail), environment and upstream behaviour — the
handler returns status 200 with plain-text body `ok` and the CORS headers, and
never calls upstream: the outcome depends on nothing but the method, so the
check precedes body parsing, validation and the configuration check. -/
theorem claim_C6_preflight (body : Except Unit JSVal) (key : Option String)
    (up : FetchOutcome) :
    handle ⟨"OPTIONS", body⟩ key up = (⟨200, corsHeaders, "ok"⟩, []) := rfl

/-- C8: the handler is a deterministic function of the request, the
environment and the upstream behaviour; two invocations with equal inputs
yield identical responses (status, headers, body and upstream trace).  In the
embedding the handler carries no state across invocations: its only
module-level binding is the constant `corsHeaders`. -/
theorem claim_C8_deterministic (r1 r2 : Request) (k1 k2 : Option String)
    (u1 u2 : FetchOutcome) (hr : r1 = r2) (hk : k1 = k2) (hu : u1 = u2) :
    handle r1 k1 u1 = handle r2 k2 u2 := by
  rw [hr, hk, hu]

theorem claim_C8_deterministic_witness :
    handle ⟨"POST", .ok (.obj [("message", .str "Hello")])⟩ none .fail =
      handle ⟨"POST", .ok (.obj [("message", .str "Hello")])⟩ none .fail :=
  claim_C8_deterministic _ _ _ _ _ _ rfl rfl rfl

/-- C9: the handler performs no method check besides the OPTIONS test: any
non-OPTIONS method is processed exactly like POST, on every body, environment
and upstream behaviour. -/
theorem claim_C9_no_method_check (m : String) (hm : m ≠ "OPTIONS")
    (body : Except Unit JSVal) (key : Option String) (up : FetchOutcome) :
    handle ⟨m, body⟩ key up = handle ⟨"POST", body⟩ key up := by
  unfold handle
  simp [hm]

theorem claim_C9_no_method_check_witness :
    handle ⟨"GET", .ok (.obj [("message", .str "Hello")])⟩ (some "k") .fail =
      handle ⟨"POST", .ok (.obj [("message", .str "Hello")])⟩ (some "k") .fail :=
  claim_C9_no_method_check "GET" (by decide) _ _ _

/-- C10: any falsy `message` value — absent (`undefined`), `null`, the empty
string, but also the number 0 and the boolean false — is rejected with status
400, the exact body of the validation branch, and no upstream call. -/
theorem claim_C10_falsy_rejected (m : String) (hm : m ≠ "OPTIONS") (j v : JSVal)
    (key : Option String) (up : FetchOutcome)
    (hj : getProp j "message" = .ok v) (hv : truthy v = false) :
    handle ⟨m, .ok j⟩ key up =
      (⟨400, jsonHeaders, "\x7b\"error\":\"Message is required\"\x7d"⟩, []) := by
  rw [handle_not_options m hm, run_falsy_message j v key up hj hv]
  rfl

theorem claim_C10_falsy_rejected_witness :
    handle ⟨"POST", .ok (.obj [("message", .num 0)])⟩ (some "k") .fail =
      (⟨400, jsonHeaders, "\x7b\"error\":\"Message is required\"\x7d"⟩, []) ∧
    handle ⟨"POST", .ok (.obj [("message", .bool false)])⟩ (some "k") .fail =
      (⟨400, jsonHeaders, "\x7b\"error\":\"Message is required\"\x7d"⟩, []) :=
  ⟨claim_C10_falsy_rejected "POST" (by decide) _ _ _ _ rfl (by decide),
   claim_C10_falsy_rejected "POST" (by decide) _ _ _ _ rfl (by decide)⟩

/-- C1 counterexample: a whitespace-only message is truthy in JS (the
validation is `if (!message)` with no trim), so the request is not rejected
with 400, and with a configured key the upstream IS called. -/
theorem claim_C1_counterexample :
    (handle ⟨"POST", .ok (.obj [("message", .str " ")])⟩ (some "k")
        (.success 200 (.ok (.obj [("candidates", .arr [])])))).1.status ≠ 400 ∧
    (handle ⟨"POST", .ok (.obj [("message", .str " ")])⟩ (some "k")
        (.success 200 (.ok (.obj [("candidates", .arr [])])))).2 ≠ [] := by
  decide

/-- C1 amended: for every request whose JSON body has `message` omitted,
null or the empty string (whitespace-only strings are truthy and pass
validation), the handler returns status 400 with body exactly
`\x7b"error":"Message is required"\x7d`, and the upstream is never called. -/
theorem claim_C1_missing_message_rejected (m : String) (hm : m ≠ "OPTIONS")
    (j : JSVal) (key : Option String) (up : FetchOutcome)
    (hj : getProp j "message" = .ok .undefined ∨ getProp j "message" = .ok .null ∨
      getProp j "message" = .ok (.str "")) :
    handle ⟨m, .ok j⟩ key up =
      (⟨400, jsonHeaders, "\x7b\"error\":\"Message is required\"\x7d"⟩, []) := by
  rcases hj with h | h | h <;>
      rw [handle_not_options m hm, run_falsy_message j _ key up h (by decide)] <;>
    rfl

theorem claim_C1_missing_message_rejected_witness :
    handle ⟨"POST", .ok (.obj [("message", .null)])⟩ (some "k") .fail =
      (⟨400, jsonHeaders, "\x7b\"error\":\"Message is required\"\x7d"⟩, []) :=
  claim_C1_missing_message_rejected "POST" (by decide) _ _ _ (Or.inr (Or.inl rfl))

/-- C7: for every request with a truthy message, when the credential is
absent from the environment the handler returns the configuration response —
status 200, a `response` body mentioning "configured" and "administrator" —
and never calls upstream.  The response is a fixed constant, so it is
independent of the message content. -/
theorem claim_C7_missing_credential (m : String) (hm : m ≠ "OPTIONS")
    (j v : JSVal) (up : FetchOutcome)
    (hj : getProp j "message" = .ok v) (hv : truthy v = true) :
    handle ⟨m, .ok j⟩ none up = (configResponse, []) ∧
    configResponse.status = 200 ∧
    strMentions configResponse.body "administrator" = true ∧
    strMentions configResponse.body "configured" = true := by
  refine ⟨?_, rfl, by decide, by decide⟩
  rw [handle_not_options m hm, run_falsy_key j v none up hj hv rfl]

theorem claim_C7_missing_credential_witness :
    handle ⟨"POST", .ok (.obj [("message", .str "Hello")])⟩ none .fail =
      (configResponse, []) ∧
    configResponse.status = 200 ∧
    strMentions configResponse.body "administrator" = true ∧
    strMentions configResponse.body "configured" = true :=
  claim_C7_missing_credential "POST" (by decide) _ _ _ rfl (by decide)

/-- Every response the try block produces without throwing carries the JSON
header set (CORS headers plus the JSON content type). -/
theorem run_ok_headers (b : Except Unit JSVal) (k : Option String) (u : FetchOutcome)
    (r : HttpResponse) (h : (run b k u).1 = .ok r) : r.headers = jsonHeaders := by
  cases b with
  | error e => simp [run] at h
  | ok j =>
    cases hg : getProp j "message" with
    | error e => simp [run, hg] at h
    | ok v =>
      cases hv : truthy v with
      | false =>
        rw [run_falsy_message j v k u hg hv] at h
        cases h
        rfl
      | true =>
        cases hk : keyTruthy k with
        | false =>
          rw [run_falsy_key j v k u hg hv hk] at h
          cases h
          rfl
        | true =>
          rw [run_truthy j v k u hg hv hk] at h
          cases u with
          | fail => simp [upstreamPhase] at h
          | success status body =>
            cases body with
            | error e =>
              simp only [upstreamPhase] at h
              split at h <;> simp at h
            | ok d =>
              cases hx : extractResponse d with
              | error e =>
                simp only [upstreamPhase, hx] at h
                split at h <;> simp at h
              | ok v2 =>
                simp only [upstreamPhase, hx] at h
                split at h
                · simp only [Except.ok.injEq] at h
                  rw [← h]
                  rfl
                · simp at h

/-- C3 counterexample: the CORS-preflight response carries only the two CORS
headers; it does not carry Content-Type: application/json, contradicting the
claim that every path attaches all three headers. -/
theorem claim_C3_counterexample :
    ("Content-Type", "application/json") ∉
      (handle ⟨"OPTIONS", .ok (.obj [])⟩ none .fail).1.headers := by
  decide

/-- C3 amended: every response carries the two CORS headers; every
non-preflight response additionally carries Content-Type: application/json;
the preflight response carries exactly the two CORS headers and no
content type. -/
theorem claim_C3_headers (req : Request) (key : Option String) (up : FetchOutcome) :
    (handle req key up).1.headers =
      if req.method = "OPTIONS" then corsHeaders else jsonHeaders := by
  obtain ⟨m, body⟩ := req
  by_cases hm : m = "OPTIONS"
  · subst hm
    rfl
  · rw [handle_not_options m hm]
    simp only [if_neg hm]
    rcases hrun : run body key up with ⟨res, calls⟩
    cases res with
    | ok r =>
      exact run_ok_headers body key up r (by rw [hrun])
    | error e => rfl

/-- C4: every thrown failure — a failing request-body JSON parse, a throwing
destructuring of `message`, a rejected fetch, a non-2xx upstream status, a
failing upstream-body parse, or a throw during text extraction — is converted
by the catch branch into status 500 with body whose `response` field (not
`error`) holds the fixed apology; all causes yield the identical response, so
a malformed-request-JSON failure is indistinguishable in status and body from
an upstream failure. -/
theorem claim_C4_catch_all (m : String) (hm : m ≠ "OPTIONS")
    (body : Except Unit JSVal) (key : Option String) (up : FetchOutcome)
    (h : body = .error () ∨
      (∃ j, body = .ok j ∧ getProp j "message" = .error ()) ∨
      (∃ j v, body = .ok j ∧ getProp j "message" = .ok v ∧ truthy v = true ∧
        keyTruthy key = true ∧
        (up = .fail ∨
         (∃ st b, up = .success st b ∧ (200 ≤ st && st ≤ 299) = false) ∨
         (∃ st, up = .success st (.error ()) ∧ (200 ≤ st && st ≤ 299) = true) ∨
         (∃ st d, up = .success st (.ok d) ∧ (200 ≤ st && st ≤ 299) = true ∧
           extractResponse d = .error ())))) :
    (handle ⟨m, body⟩ key up).1 =
      ⟨500, jsonHeaders,
        "\x7b\"response\":\"I\x27m sorry, I encountered an error while processing your message. Please try again.\"\x7d"⟩ := by
  rw [handle_not_options m hm]
  rcases h with h | ⟨j, hb, hg⟩ | ⟨j, v, hb, hg, hv, hk, hcase⟩
  · subst h
    rfl
  · subst hb
    simp only [run, hg]
    rfl
  · subst hb
    rw [run_truthy j v key up hg hv hk]
    rcases hcase with h | ⟨st, b, hu, hst⟩ | ⟨st, hu, hst⟩ | ⟨st, d, hu, hst, hx⟩
    · subst h
      rfl
    · subst hu
      simp only [upstreamPhase, hst]
      rfl
    · subst hu
      simp only [upstreamPhase, hst]
      rfl
    · subst hu
      simp only [upstreamPhase, hst, hx]
      rfl

theorem claim_C4_catch_all_witness :
    (handle ⟨"POST", .error ()⟩ (some "k") .fail).1 =
      ⟨500, jsonHeaders,
        "\x7b\"response\":\"I\x27m sorry, I encountered an error while processing your message. Please try again.\"\x7d"⟩ ∧
    (handle ⟨"POST", .ok (.obj [("message", .str "Hello")])⟩ (some "k")
        (.success 503 (.ok (.obj [])))).1 =
      ⟨500, jsonHeaders,
        "\x7b\"response\":\"I\x27m sorry, I encountered an error while processing your message. Please try again.\"\x7d"⟩ :=
  ⟨claim_C4_catch_all "POST" (by decide) _ _ _ (Or.inl rfl),
   claim_C4_catch_all "POST" (by decide) _ _ _
     (Or.inr (Or.inr ⟨_, _, rfl, rfl, by decide, by decide,
       Or.inr (Or.inl ⟨503, _, rfl, by decide⟩)⟩))⟩

/-- C2 counterexample: an upstream payload whose candidates[0].content is a
truthy object without `parts` makes the unchecked access
`content.parts[0]` throw, so the handler returns status 500 — not the
claimed 200 fallback. -/
theorem claim_C2_counterexample :
    (handle ⟨"POST", .ok (.obj [("message", .str "Hello")])⟩ (some "k")
        (.success 200 (.ok (.obj [("candidates",
          .arr [.obj [("content", .obj [])]])])))).1.status = 500 := by
  decide

/-- C2 amended: on a successful upstream status, the fixed fallback string is
returned with status 200 exactly when the guard
`candidates && candidates[0] && candidates[0].content` is falsy — candidates
absent or falsy, candidates[0] falsy (covering an empty candidates array), or
content falsy.  When the guard holds, `content.parts[0].text` is read without
further checks: absent or empty `parts` throws (status 500, see the
counterexample), and a missing `text` yields status 200 with the `response`
field absent. -/
theorem claim_C2_fallback (m : String) (hm : m ≠ "OPTIONS") (j v : JSVal)
    (key : Option String) (hk : keyTruthy key = true)
    (hj : getProp j "message" = .ok v) (hv : truthy v = true)
    (status : Nat) (hst : (200 ≤ status && status ≤ 299) = true)
    (data cands : JSVal)
    (h1 : getProp data "candidates" = .ok cands)
    (hfail : truthy cands = false ∨
      (∃ c0, getIndex cands 0 = .ok c0 ∧ (truthy c0 = false ∨
        (∃ content, getProp c0 "content" = .ok content ∧ truthy content = false)))) :
    (handle ⟨m, .ok j⟩ key (.success status (.ok data))).1 =
      ⟨200, jsonHeaders,
        "\x7b\"response\":\"I\x27m sorry, I couldn\x27t generate a response at this time.\"\x7d"⟩ := by
  rw [handle_not_options m hm, run_truthy j v key _ hj hv hk]
  have hx : extractResponse data = .ok (.str fallbackMessage) := by
    rcases hfail with h2 | ⟨c0, h3, h4 | ⟨content, h5, h6⟩⟩
    · simp only [extractResponse, h1, h2]
      simp
    · simp only [extractResponse, h1, h3, h4]
      simp
    · simp only [extractResponse, h1, h3, h5, h6]
      simp
  simp only [upstreamPhase, hst, hx]
  rfl

theorem claim_C2_fallback_witness :
    (handle ⟨"POST", .ok (.obj [("message", .str "Hello")])⟩ (some "k")
        (.success 200 (.ok (.obj [("candidates", .arr [])])))).1 =
      ⟨200, jsonHeaders,
        "\x7b\"response\":\"I\x27m sorry, I couldn\x27t generate a response at this time.\"\x7d"⟩ :=
  claim_C2_fallback "POST" (by decide) (.obj [("message", .str "Hello")]) (.str "Hello")
    (some "k") (by decide) rfl (by decide) 200 (by decide)
    (.obj [("candidates", .arr [])]) (.arr []) rfl (Or.inr ⟨.undefined, rfl, Or.inl rfl⟩)

/-- C5: with a truthy message, a truthy credential, a 2xx upstream status and
a well-formed candidate — candidates, candidates[0] and its content truthy,
and content.parts[0].text present — the handler returns the 200 JSON response
whose `response` field is exactly candidates[0].content.parts[0].text of the
upstream payload. -/
theorem claim_C5_success (m : String) (hm : m ≠ "OPTIONS") (j v : JSVal)
    (key : Option String) (hk : keyTruthy key = true)
    (hj : getProp j "message" = .ok v) (hv : truthy v = true)
    (status : Nat) (hst : (200 ≤ status && status ≤ 299) = true)
    (data cands c0 content parts p0 : JSVal) (text : String)
    (h1 : getProp data "candidates" = .ok cands) (h2 : truthy cands = true)
    (h3 : getIndex cands 0 = .ok c0) (h4 : truthy c0 = true)
    (h5 : getProp c0 "content" = .ok content) (h6 : truthy content = true)
    (h7 : getProp content "parts" = .ok parts)
    (h8 : getIndex parts 0 = .ok p0)
    (h9 : getProp p0 "text" = .ok (.str text)) :
    (handle ⟨m, .ok j⟩ key (.success status (.ok data))).1 =
      mkJsonResponse 200 (.obj [("response", .str text)]) := by
  rw [handle_not_options m hm, run_truthy j v key _ hj hv hk]
  have hx : extractResponse data = .ok (.str text) := by
    simp only [extractResponse, h1, h2, h3, h4, h5, h6, h7, h8, h9]
    simp
  simp only [upstreamPhase, hst, hx]
  rfl

theorem claim_C5_success_witness :
    (handle ⟨"POST", .ok (.obj [("message", .str "Hello")])⟩ (some "k")
        (.success 200 (.ok (.obj [("candidates", .arr [.obj [("content",
          .obj [("parts", .arr [.obj [("text", .str "Hi there!")]])])]])])))).1 =
      ⟨200, jsonHeaders, "\x7b\"response\":\"Hi there!\"\x7d"⟩ :=
  (claim_C5_success "POST" (by decide) (.obj [("message", .str "Hello")]) (.str "Hello")
    (some "k") (by decide) rfl (by decide) 200 (by decide)
    (.obj [("candidates", .arr [.obj [("content",
      .obj [("parts", .arr [.obj [("text", .str "Hi there!")]])])]])])
    (.arr [.obj [("content", .obj [("parts", .arr [.obj [("text", .str "Hi there!")]])])]])
    (.obj [("content", .obj [("parts", .arr [.obj [("text", .str "Hi there!")]])])])
    (.obj [("parts", .arr [.obj [("text", .str "Hi there!")]])])
    (.arr [.obj [("text", .str "Hi there!")]])
    (.obj [("text", .str "Hi there!")])
    "Hi there!" rfl rfl rfl rfl rfl rfl rfl rfl rfl).trans rfl

end ChatRelay
